import Mathlib

/-!
Shallow embedding of `selfdrive/ui/qt/widgets/ssh_keys.cc` (the `SshControl`
widget) and proofs of the specified properties.

The widget stores two string parameters (`GithubUsername`, `GithubSshKeys`)
in a persistent key-value store, shows a button whose label reflects the
stored state, and on click either unlinks (removes both keys) or — when the
button text equals the literal `"ADD"` — prompts for a username and fetches
`https://github.com/<username>.keys`.
-/

namespace SshKeys

/-- The persistent settings store (`Params`), restricted to the two keys this
widget touches. `none` models an absent key; the underlying store returns the
empty string when an absent key is read. -/
structure Params where
  githubUsername : Option String
  githubSshKeys : Option String
deriving DecidableEq, Repr

/-- `params.get(key)`: returns the stored value, or the empty string when the
key is absent (or not one of the two keys this widget uses). -/
def Params.get (p : Params) (key : String) : String :=
  if key = "GithubUsername" then p.githubUsername.getD ""
  else if key = "GithubSshKeys" then p.githubSshKeys.getD ""
  else ""

/-- `params.put(key, val)`. -/
def Params.put (p : Params) (key val : String) : Params :=
  if key = "GithubUsername" then { p with githubUsername := some val }
  else if key = "GithubSshKeys" then { p with githubSshKeys := some val }
  else p

/-- `params.remove(key)`. -/
def Params.remove (p : Params) (key : String) : Params :=
  if key = "GithubUsername" then { p with githubUsername := none }
  else if key = "GithubSshKeys" then { p with githubSshKeys := none }
  else p

/-- The displayed state of the control: the primary button text (`setText` /
`text()`), the secondary `username_label`, and the enabled flag
(`setEnabled`). -/
structure ControlState where
  text : String
  usernameLabel : String
  enabled : Bool
deriving DecidableEq, Repr

/-- The control as constructed by `ButtonControl("مفاتيح SSH", "", ...)`,
before the constructor's final `refresh()` call: empty button text, empty
username label. -/
def initControl : ControlState :=
  { text := "", usernameLabel := "", enabled := true }

/-- `SshControl::refresh()`: reads `GithubSshKeys`; if non-empty, shows the
stored `GithubUsername` in the secondary label and sets the button text to
`"إزالة"`; otherwise clears the secondary label and sets the text to
`"اضف"`. Always re-enables the control. -/
def refresh (p : Params) (c : ControlState) : ControlState :=
  let param := p.get "GithubSshKeys"
  if param.length ≠ 0 then
    { c with usernameLabel := p.get "GithubUsername", text := "إزالة", enabled := true }
  else
    { c with usernameLabel := "", text := "اضف", enabled := true }

/-- The `clicked` lambda in the `SshControl` constructor. `dialogInput` is the
string returned by `InputDialog::getText` (empty when the user cancels).
Returns the new control state, the new store state, and `some u` exactly when
`getUserKeys(u)` is invoked (`none` otherwise). -/
def onClick (dialogInput : String) (p : Params) (c : ControlState) :
    ControlState × Params × Option String :=
  if c.text = "ADD" then
    if dialogInput.length > 0 then
      ({ c with text := "جار التحميل", enabled := false }, p, some dialogInput)
    else
      (c, p, none)
  else
    let p1 := p.remove "GithubUsername"
    let p2 := p1.remove "GithubSshKeys"
    (refresh p2 c, p2, none)

/-- The URL passed to `HttpRequest::sendRequest` by `SshControl::getUserKeys`. -/
def fetchUrl (username : String) : String :=
  "https://github.com/" ++ username ++ ".keys"

/-- The list of GET requests issued by one call to `getUserKeys(username)`:
exactly one request, to `fetchUrl username`. -/
def getUserKeysRequests (username : String) : List String :=
  [fetchUrl username]

/-- Outcome of the HTTP request as delivered to the `requestDone` lambda:
the response body, the success flag, and the `request->timeout()` flag. -/
structure FetchResult where
  resp : String
  success : Bool
  timeout : Bool
deriving DecidableEq, Repr

/-- Alert text `QString("Username \x27%1\x27 has no keys on GitHub").arg(username)`. -/
def noKeysMsg (username : String) : String :=
  "Username \x27" ++ username ++ "\x27 has no keys on GitHub"

/-- Alert text `QString("Username \x27%1\x27 doesn\x27t exist on GitHub").arg(username)`. -/
def notExistMsg (username : String) : String :=
  "Username \x27" ++ username ++ "\x27 doesn\x27t exist on GitHub"

/-- The `requestDone` lambda in `SshControl::getUserKeys`: on success with a
non-empty body it persists both keys; on success with an empty body or on
failure it shows one alert; every path ends with `refresh()`. Returns the new
store, the refreshed control state, and the list of alerts shown. -/
def requestDone (username : String) (r : FetchResult) (p : Params)
    (c : ControlState) : Params × ControlState × List String :=
  if r.success then
    if !r.resp.isEmpty then
      let p1 := p.put "GithubUsername" username
      let p2 := p1.put "GithubSshKeys" r.resp
      (p2, refresh p2 c, [])
    else
      (p, refresh p c, [noKeysMsg username])
  else
    if r.timeout then
      (p, refresh p c, ["Request timed out"])
    else
      (p, refresh p c, [notExistMsg username])

/-- The best-effort store invariant: `GithubUsername` and `GithubSshKeys` are
both present or both absent. -/
def pairedInv (p : Params) : Prop :=
  p.githubUsername.isSome = p.githubSshKeys.isSome

instance (p : Params) : Decidable (pairedInv p) := by
  unfold pairedInv; infer_instance

/-- The empty store: both keys absent. -/
def emptyParams : Params :=
  { githubUsername := none, githubSshKeys := none }

/-- Claim C1 (code behaviour at the failing input): with the store empty, the
constructor's `refresh()` leaves the control showing the unlinked label
`"اضف"` (not the literal `"ADD"` the click handler compares against), so a
click — even with the user ready to type a username — takes the removal
branch: no input dialog result is consumed, no fetch is started, the control
is never put into the Loading state, and it ends re-enabled showing `"اضف"`.
This contradicts the claim that a click in the unlinked state prompts for a
username and invokes the fetch. -/
theorem c1_add_state_click_takes_removal_branch :
    (refresh emptyParams initControl).text = "اضف" ∧
    (refresh emptyParams initControl).text ≠ "ADD" ∧
    (onClick "octocat" emptyParams (refresh emptyParams initControl)).2.2 = none ∧
    (onClick "octocat" emptyParams (refresh emptyParams initControl)).1.text = "اضف" ∧
    (onClick "octocat" emptyParams (refresh emptyParams initControl)).1.enabled = true := by
  decide

/-- Claim C2: for every click received while the control shows the linked
("Remove") label `"إزالة"`, both `GithubUsername` and `GithubSshKeys` are
removed from the store, no fetch is started, and the control transitions to
the unlinked ("Add") display state, re-enabled. -/
theorem c2_remove_state_click_unlinks (d : String) (p : Params)
    (c : ControlState) (h : c.text = "إزالة") :
    (onClick d p c).2.1 = emptyParams ∧
    (onClick d p c).2.2 = none ∧
    (onClick d p c).1.text = "اضف" ∧
    (onClick d p c).1.enabled = true := by
  have hne : c.text ≠ "ADD" := by rw [h]; decide
  obtain ⟨u, k⟩ := p
  simp [onClick, hne, Params.remove, refresh, Params.get, emptyParams]

/-- Witness for C2 at a concrete linked state. -/
theorem c2_remove_state_click_unlinks_witness :
    (onClick "x" { githubUsername := some "octocat", githubSshKeys := some "ssh-rsa AAA" }
        { text := "إزالة", usernameLabel := "octocat", enabled := true }).2.1 = emptyParams ∧
    (onClick "x" { githubUsername := some "octocat", githubSshKeys := some "ssh-rsa AAA" }
        { text := "إزالة", usernameLabel := "octocat", enabled := true }).2.2 = none ∧
    (onClick "x" { githubUsername := some "octocat", githubSshKeys := some "ssh-rsa AAA" }
        { text := "إزالة", usernameLabel := "octocat", enabled := true }).1.text = "اضف" ∧
    (onClick "x" { githubUsername := some "octocat", githubSshKeys := some "ssh-rsa AAA" }
        { text := "إزالة", usernameLabel := "octocat", enabled := true }).1.enabled = true :=
  c2_remove_state_click_unlinks "x" _ _ rfl

/-- Claim C3: for every store state, `refresh()` shows the linked ("Remove")
label `"إزالة"` together with the stored `GithubUsername` in the secondary
label iff the stored `GithubSshKeys` value is non-empty; otherwise it clears
the secondary label and shows the unlinked ("Add") label `"اضف"`; in both
cases it re-enables the control. -/
theorem c3_refresh_display (p : Params) (c : ControlState) :
    (refresh p c).enabled = true ∧
    (((refresh p c).text = "إزالة" ∧
        (refresh p c).usernameLabel = p.get "GithubUsername") ↔
      p.get "GithubSshKeys" ≠ "") ∧
    (((refresh p c).text = "اضف" ∧ (refresh p c).usernameLabel = "") ↔
      p.get "GithubSshKeys" = "") := by
  unfold refresh
  rcases hk : p.get "GithubSshKeys" with ⟨l⟩
  rcases l with _ | ⟨a, l⟩ <;> simp_all [String.length, hk, String.ext_iff]

/-- Claim C4: `getUserKeys(username)` issues exactly one GET, to
`https://github.com/<username>.keys`, and when the request completes
successfully with a non-empty body the handler persists
`GithubUsername = username` and `GithubSshKeys = body`. -/
theorem c4_fetch_persists_keys (username : String) (r : FetchResult)
    (p : Params) (c : ControlState) (hs : r.success = true)
    (hb : r.resp ≠ "") :
    getUserKeysRequests username = ["https://github.com/" ++ username ++ ".keys"] ∧
    (requestDone username r p c).1.githubUsername = some username ∧
    (requestDone username r p c).1.githubSshKeys = some r.resp := by
  have hne : r.resp.isEmpty = false := by
    rcases h : r.resp.isEmpty with _ | _
    · rfl
    · exact absurd ((String.isEmpty_iff r.resp).mp h) hb
  simp [getUserKeysRequests, fetchUrl, requestDone, hs, hne, Params.put]

/-- Witness for C4 with a concrete successful non-empty response. -/
theorem c4_fetch_persists_keys_witness :
    getUserKeysRequests "octocat" = ["https://github.com/octocat.keys"] ∧
    (requestDone "octocat" { resp := "ssh-rsa AAA", success := true, timeout := false }
        emptyParams initControl).1.githubUsername = some "octocat" ∧
    (requestDone "octocat" { resp := "ssh-rsa AAA", success := true, timeout := false }
        emptyParams initControl).1.githubSshKeys = some "ssh-rsa AAA" :=
  c4_fetch_persists_keys "octocat" _ emptyParams initControl rfl (by decide)

/-- Claim C5: for every fetch completion that is not a success with a
non-empty body, the store is unchanged and exactly one alert is shown, with
the prescribed message for each of the three cases (empty body, timeout,
other failure). -/
theorem c5_error_paths_alert_only (username : String) (r : FetchResult)
    (p : Params) (c : ControlState)
    (h : ¬(r.success = true ∧ r.resp ≠ "")) :
    (requestDone username r p c).1 = p ∧
    (requestDone username r p c).2.2 =
      [if r.success then noKeysMsg username
       else if r.timeout then "Request timed out"
       else notExistMsg username] := by
  rcases hs : r.success with _ | _
  · rcases ht : r.timeout with _ | _ <;> simp [requestDone, hs, ht]
  · have hb : r.resp = "" := by
      by_contra hb
      exact h ⟨hs, hb⟩
    have hbe : r.resp.isEmpty = true := (String.isEmpty_iff r.resp).mpr hb
    simp [requestDone, hs, hbe]

/-- Witness for C5 at a concrete timed-out failure. -/
theorem c5_error_paths_alert_only_witness :
    (requestDone "octocat" { resp := "", success := false, timeout := true }
        emptyParams initControl).1 = emptyParams ∧
    (requestDone "octocat" { resp := "", success := false, timeout := true }
        emptyParams initControl).2.2 =
      [if ({ resp := "", success := false, timeout := true } : FetchResult).success
       then noKeysMsg "octocat"
       else if ({ resp := "", success := false, timeout := true } : FetchResult).timeout
       then "Request timed out"
       else notExistMsg "octocat"] :=
  c5_error_paths_alert_only "octocat" _ emptyParams initControl (by decide)

/-- Claim C6: every fetch-completion outcome terminates by calling
`refresh()` on the resulting store, so the control ends re-enabled
(interactive) regardless of outcome. -/
theorem c6_every_outcome_refreshes (username : String) (r : FetchResult)
    (p : Params) (c : ControlState) :
    (requestDone username r p c).2.1 = refresh (requestDone username r p c).1 c ∧
    (requestDone username r p c).2.1.enabled = true := by
  have hen : ∀ q : Params, (refresh q c).enabled = true := by
    intro q
    simp only [refresh]
    split <;> rfl
  unfold requestDone
  split <;> [skip; split <;> simp [hen]]
  split <;> simp [hen]

/-- Claim C7: the invariant that `GithubUsername` and `GithubSshKeys` are
both present or both absent is preserved by every operation of the control:
the click handler (either branch, any dialog input) and the fetch-completion
handler (any outcome) map a store satisfying the invariant to a store
satisfying it. `refresh` performs no store writes, so it preserves it
trivially. -/
theorem c7_paired_invariant_preserved (d username : String) (r : FetchResult)
    (p : Params) (c : ControlState) (h : pairedInv p) :
    pairedInv (onClick d p c).2.1 ∧ pairedInv (requestDone username r p c).1 := by
  obtain ⟨u, k⟩ := p
  refine ⟨?_, ?_⟩
  · simp only [onClick]
    split
    · split <;> simpa using h
    · simp [Params.remove, pairedInv]
  · simp only [requestDone]
    split
    · split
      · simp [Params.put, pairedInv]
      · simpa using h
    · split <;> simpa using h

/-- Witness for C7 at a concrete store satisfying the invariant. -/
theorem c7_paired_invariant_preserved_witness :
    pairedInv (onClick "octocat" emptyParams
      { text := "اضف", usernameLabel := "", enabled := true }).2.1 ∧
    pairedInv (requestDone "octocat"
      { resp := "ssh-rsa AAA", success := true, timeout := false }
      emptyParams initControl).1 :=
  c7_paired_invariant_preserved "octocat" "octocat" _ emptyParams _ (by decide)

/-- Claim C8: `refresh()` is idempotent on the displayed state: applying it
twice with no intervening store change yields exactly the same primary
label, username label and enabled flag as applying it once. -/
theorem c8_refresh_idempotent (p : Params) (c : ControlState) :
    refresh p (refresh p c) = refresh p c := by
  simp only [refresh]

/-- Helper: `refresh` on the empty store always shows the unlinked label. -/
theorem refresh_empty_store_text (c : ControlState) :
    (refresh emptyParams c).text = "اضف" := by
  simp [refresh, Params.get, emptyParams]

/-- Helper: `refresh` only ever sets one of the two Arabic labels. -/
theorem refresh_text_cases (p : Params) (c : ControlState) :
    (refresh p c).text = "اضف" ∨ (refresh p c).text = "إزالة" := by
  simp only [refresh]
  split <;> simp

/-- Helper: with any button text other than the literal `"ADD"`, a click
takes the removal branch. -/
theorem onClick_not_add (d : String) (p : Params) (c : ControlState)
    (hne : c.text ≠ "ADD") :
    onClick d p c = (refresh emptyParams c, emptyParams, none) := by
  obtain ⟨u, k⟩ := p
  simp [onClick, hne, Params.remove, emptyParams]

/-- Claim C9: the click handler takes the prompt-and-fetch branch only on
the literal text `"ADD"`, but `refresh()` only ever sets `"اضف"` or
`"إزالة"`; hence every click on a control whose text was set by `refresh()`
— linked or unlinked — takes the removal branch: both keys are removed, no
fetch is started, and the control never enters the Loading state. -/
theorem c9_prompt_branch_unreachable (d : String) (p0 p : Params)
    (c0 : ControlState) :
    ((refresh p0 c0).text = "اضف" ∨ (refresh p0 c0).text = "إزالة") ∧
    (onClick d p (refresh p0 c0)).2.2 = none ∧
    (onClick d p (refresh p0 c0)).2.1 = emptyParams ∧
    (onClick d p (refresh p0 c0)).1.text = "اضف" ∧
    (onClick d p (refresh p0 c0)).1.text ≠ "جار التحميل" := by
  have htext := refresh_text_cases p0 c0
  have hne : (refresh p0 c0).text ≠ "ADD" := by
    rcases htext with h | h <;> rw [h] <;> decide
  refine ⟨htext, ?_, ?_, ?_, ?_⟩ <;>
    simp [onClick_not_add d p _ hne, refresh_empty_store_text]

/-- Claim C10: the linked/unlinked display decision depends only on
`GithubSshKeys`: two stores agreeing on `GithubSshKeys` (but arbitrary on
`GithubUsername`) yield the same primary label and the same enabled flag
under `refresh()`; in particular an orphaned `GithubUsername` with no stored
keys is displayed as unlinked. -/
theorem c10_label_depends_only_on_keys (p1 p2 : Params) (c1 c2 : ControlState)
    (h : p1.githubSshKeys = p2.githubSshKeys) :
    (refresh p1 c1).text = (refresh p2 c2).text ∧
    (refresh p1 c1).enabled = (refresh p2 c2).enabled := by
  have hg : p1.get "GithubSshKeys" = p2.get "GithubSshKeys" := by
    simp [Params.get, h]
  simp only [refresh, hg]
  split <;> simp

/-- Witness for C10: an orphaned username with no stored keys displays the
same label and enabled flag as the empty store (the unlinked state). -/
theorem c10_label_depends_only_on_keys_witness :
    (refresh { githubUsername := some "orphan", githubSshKeys := none }
        initControl).text = (refresh emptyParams initControl).text ∧
    (refresh { githubUsername := some "orphan", githubSshKeys := none }
        initControl).enabled = (refresh emptyParams initControl).enabled :=
  c10_label_depends_only_on_keys _ _ _ _ rfl

end SshKeys
